import Mathlib

/-!
Shallow embedding of the `imagedata_format_pdf` plugin
(`src/imagedata_format_pdf/pdfplugin.py`, module `__init__.py`).

The plugin reads PDF files either by encapsulating the raw bytes into a
DICOM dataset (`generate_dicom_from_pdf`) or by rasterizing pages with an
external renderer and stacking them into a numpy array (`_read_image`).
External collaborators (the poppler renderer, numpy, pydicom, the host
framework) are modelled at their interface:
* the renderer availability probe is a boolean parameter (`poppler`);
* a successful `convert_from_bytes` call is a list of `Page` values in
  document order (height, width, and an opaque pixel-content identifier);
* a numpy array is its shape, its dtype tag and the ordered list of page
  contents written into it (`si[i] = img` writes pages by index; per the
  allocation at line 109 the buffer is pre-sized from the first page, and
  pixel-level content is abstracted to the per-page identifier);
* a pydicom `FileDataset` is the record of fields the plugin assigns
  (`DicomDoc`); the file-meta group is a set of fixed literal identifiers
  that no field of the plugin's behaviour depends on, and the two
  `datetime.now()`-derived strings are a parameter (`DT`).

Python attribute state on the plugin instance is explicit: `self.dpi` and
`self.rotate` are seeded inside `_read_image` (lines 73-74); `self.encapsulate`
is whatever the instance already carried (`Option PyVal`; `none` on a fresh
instance, since neither `PDFPlugin` nor the framework base class defines an
`encapsulate` attribute), and reading a missing attribute, or calling
`.lower()` on a non-string, is an `AttributeError`.
-/

deriving instance DecidableEq for Except

namespace PdfPlugin

/-- A Python value that can sit in one of the option attributes:
`setattr` stores strings, the seeded defaults are ints, and the final
coercion of `encapsulate` produces a bool. -/
inductive PyVal where
  | int (n : Int)
  | str (s : String)
  | bool (b : Bool)
deriving DecidableEq

/-- The Python exceptions raised by the embedded fragment. -/
inductive PyError where
  | osError (msg : String)
  | valueError (msg : String)
  | attributeError (msg : String)
  | notImageError (msg : String)
  | writeNotImplemented (msg : String)
deriving DecidableEq

/-- One rasterized page as returned by `convert_from_bytes`: extents plus
an opaque identifier standing for its pixel content. -/
structure Page where
  height : Nat
  width : Nat
  content : Nat
deriving DecidableEq

/-- numpy dtypes used by the plugin. -/
inductive DType where
  | uint8
deriving DecidableEq

/-- A numpy array as the plugin observes it: shape, dtype, and the ordered
page contents stacked into it. -/
structure NDArray where
  shape : List Nat
  dtype : DType
  pages : List Nat
deriving DecidableEq

/-- `np.rot90(si, axes=(1,2))`: swaps extents of axes 1 and 2 (the call
site always passes a 4D array, so the under-3D error path of numpy is
unreachable and not modelled). Pixel content stays per-page. -/
def rot90axes12 (a : NDArray) : NDArray :=
  match a.shape with
  | n :: h :: w :: rest => { a with shape := n :: w :: h :: rest }
  | s => { a with shape := s }

/-- The two `datetime.now().strftime` strings used for date/time fields. -/
structure DT where
  date : String
  time : String
deriving DecidableEq

/-- The DICOM dataset built by `generate_dicom_from_pdf` (main dataset
fields; the file-meta group holds four fixed literal UIDs which no claim
or behaviour depends on). `burnedIn` embeds the BurnedInAnnotation field. -/
structure DicomDoc where
  studyDate : String
  studyTime : String
  contentDate : String
  contentTime : String
  acquisitionDateTime : String
  manufacturer : String
  referringPhysicianName : String
  sopClassUID : String
  encapsulatedDocument : List Nat
  mimeTypeOfEncapsulatedDocument : String
  modality : String
  conversionType : String
  specificCharacterSet : String
  burnedIn : String
  recognizableVisualFeatures : String
  documentTitle : String
  verificationFlag : String
  instanceNumber : Nat
  conceptNameCodeSequence : List Unit
deriving DecidableEq

/-- `PDFPlugin.generate_dicom_from_pdf` (lines 232-279): wrap the raw file
bytes in a dataset, padding with one zero byte when the length is odd. -/
def generate_dicom_from_pdf (dt : DT) (fileBytes : List Nat) : DicomDoc :=
  let valueLength := fileBytes.length
  let padded := if valueLength % 2 ≠ 0 then fileBytes ++ [0] else fileBytes
  { studyDate := dt.date
    studyTime := dt.time
    contentDate := dt.date
    contentTime := dt.time
    acquisitionDateTime := "19700101"
    manufacturer := "imagedata"
    referringPhysicianName := ""
    sopClassUID := "1.2.840.10008.5.1.4.1.1.104.1"
    encapsulatedDocument := padded
    mimeTypeOfEncapsulatedDocument := "application/pdf"
    modality := "DOC"
    conversionType := "WSD"
    specificCharacterSet := "ISO_IR 100"
    burnedIn := "YES"
    recognizableVisualFeatures := "YES"
    documentTitle := ""
    verificationFlag := "UNVERIFIED"
    instanceNumber := 1
    conceptNameCodeSequence := [] }

/-- Python `str.split(sep)` for a one-character separator, on char lists. -/
def splitOnChar (c : Char) : List Char → List (List Char)
  | [] => [[]]
  | x :: xs =>
    let r := splitOnChar c xs
    if x = c then [] :: r
    else
      match r with
      | [] => [[x]]
      | h :: t => (x :: h) :: t

/-- Python `s.split(c)` on strings. -/
def pySplit (s : String) (c : Char) : List String :=
  (splitOnChar c s.toList).map (fun l => String.mk l)

/-- ASCII lower-casing of one character (`str.lower`; option values are
ASCII). -/
def lowerChar (c : Char) : Char :=
  if 'A' ≤ c ∧ c ≤ 'Z' then Char.ofNat (c.toNat + 32) else c

/-- Python `s.lower()` for ASCII strings. -/
def pyLower (s : String) : String :=
  String.mk (s.toList.map lowerChar)

/-- Whitespace stripped by Python `int(str)`. -/
def isPySpace (c : Char) : Bool :=
  c == ' ' || c == '\t' || c == '\n' || c == '\r'

/-- Value of a nonempty all-digit character list. -/
def digitsToNat (l : List Char) : Option Nat :=
  if l.isEmpty then none
  else if l.all Char.isDigit then
    some (l.foldl (fun a c => a * 10 + (c.toNat - 48)) 0)
  else none

/-- Python `int(s)` on a string: optional surrounding whitespace, optional
sign, decimal digits; anything else raises `ValueError` (digit-group
underscores are not modelled; no option value in scope uses them). -/
def pyIntOfString (s : String) : Except PyError Int :=
  let t := ((s.toList.dropWhile isPySpace).reverse.dropWhile isPySpace).reverse
  let sd : Int × List Char :=
    match t with
    | '-' :: r => (-1, r)
    | '+' :: r => (1, r)
    | r => (1, r)
  match digitsToNat sd.2 with
  | some n => Except.ok (sd.1 * n)
  | none => Except.error (PyError.valueError ("invalid literal for int with base 10: " ++ s))

/-- Python `int(v)` as applied at lines 83-84 (`int` of an int is the
identity, of a bool its 0/1 value, of a string a parse). -/
def pyInt : PyVal → Except PyError Int
  | PyVal.int n => Except.ok n
  | PyVal.bool b => Except.ok (if b then 1 else 0)
  | PyVal.str s => pyIntOfString s

/-- Line 85: `self.encapsulate.lower() == 'true' or self.encapsulate.lower() == 'on'`.
Reading the attribute when it was never set raises `AttributeError`; so
does `.lower()` on an int or bool left from a previous coercion. -/
def pyEncapsulateCoerce : Option PyVal → Except PyError Bool
  | some (PyVal.str s) => Except.ok (pyLower s == "true" || pyLower s == "on")
  | some (PyVal.int _) => Except.error (PyError.attributeError "int object has no attribute lower")
  | some (PyVal.bool _) => Except.error (PyError.attributeError "bool object has no attribute lower")
  | none => Except.error (PyError.attributeError "PDFPlugin object has no attribute encapsulate")

/-- The option-holding attributes of the plugin instance after the
seeding at lines 73-74: `dpi` and `rotate` are freshly assigned, while
`encapsulate` keeps whatever the instance carried (nothing, on a fresh
instance). -/
structure AttrState where
  dpi : PyVal
  rotate : PyVal
  encapsulate : Option PyVal
deriving DecidableEq

/-- `legal_attributes = {'dpi', 'rotate', 'encapsulate'}` (line 75). -/
def legalAttributes : List String := ["dpi", "rotate", "encapsulate"]

/-- `setattr(self, attr, value)` for the three legal attributes. -/
def setAttr (st : AttrState) (attr value : String) : AttrState :=
  if attr = "dpi" then { st with dpi := PyVal.str value }
  else if attr = "rotate" then { st with rotate := PyVal.str value }
  else { st with encapsulate := some (PyVal.str value) }

/-- One iteration of the option loop (lines 77-82):
`attr,value = expr.split('=')` raises `ValueError` unless the split has
exactly two parts; an attribute outside the legal set raises
`ValueError('Unknown attribute ...')`; a legal one is `setattr`-ed. -/
def applyEntry (st : AttrState) (e : String) : Except PyError AttrState :=
  match pySplit e '=' with
  | [attr, value] =>
    if attr ∈ legalAttributes then Except.ok (setAttr st attr value)
    else Except.error (PyError.valueError ("Unknown attribute " ++ attr ++ " set in psopt"))
  | _ => Except.error (PyError.valueError "values to unpack in expr.split, expected 2")

/-- The option loop over `opts['pdfopt'].split(',')`, stopping at the
first raised exception. -/
def applyEntries : AttrState → List String → Except PyError AttrState
  | st, [] => Except.ok st
  | st, e :: rest =>
    match applyEntry st e with
    | Except.ok st2 => applyEntries st2 rest
    | Except.error err => Except.error err

/-- The resolved per-read settings after lines 73-87. -/
structure Settings where
  dpi : Int
  rotate : Int
  encapsulate : Bool
deriving DecidableEq

/-- Lines 73-87 of `_read_image`: seed `dpi = 150` and `rotate = 0`, parse
the option string when `'pdfopt' in opts and opts['pdfopt']` (absent or
empty means no parsing), coerce `dpi` and `rotate` with `int`, coerce
`encapsulate` from its string form, and validate `rotate ∈ {0, 90}`.
`pdfopt = none` models a missing or falsy `opts['pdfopt']`; `initEnc` is
the `encapsulate` attribute the instance already carried. -/
def resolveOptions (pdfopt : Option String) (initEnc : Option PyVal) : Except PyError Settings :=
  let st0 : AttrState := { dpi := PyVal.int 150, rotate := PyVal.int 0, encapsulate := initEnc }
  let stE :=
    match pdfopt with
    | some s => if s ≠ "" then applyEntries st0 (pySplit s ',') else Except.ok st0
    | none => Except.ok st0
  match stE with
  | Except.error e => Except.error e
  | Except.ok st =>
    match pyInt st.dpi with
    | Except.error e => Except.error e
    | Except.ok d =>
      match pyInt st.rotate with
      | Except.error e => Except.error e
      | Except.ok r =>
        match pyEncapsulateCoerce st.encapsulate with
        | Except.error e => Except.error e
        | Except.ok enc =>
          if r ≠ 0 ∧ r ≠ 90 then
            Except.error (PyError.valueError ("psopt rotate value " ++ toString r ++ " is not implemented"))
          else Except.ok { dpi := d, rotate := r, encapsulate := enc }

/-- What `_read_image` hands back to the framework: either the header
carrying the encapsulated DICOM dataset and its tag table, or the stacked
pixel array with the header fields set in the rasterization branch
(`photometricInterpretation = 'RGB'`, `color = True`). -/
inductive ReadResult where
  | encapsulated (ds : DicomDoc) (tags : List (List Nat))
  | raster (si : NDArray) (photometricInterpretation : String) (color : Bool)
deriving DecidableEq

/-- `PDFPlugin._read_image` (lines 54-123). `poppler` is the
`POPPLER_INSTALLED` flag recorded at import time; `pages` is the page
list a successful `convert_from_bytes(f.read())` yields on `fileBytes`
(the renderer's own `NotImageError` path lies outside the embedded
fragment). Stacking writes page `i` into the buffer pre-sized from page 0,
so the per-page contents assume pages share the first page's extents (the
source leaves mismatched pages to numpy broadcasting, which the spec
declares undefined). -/
def readImage (poppler : Bool) (pdfopt : Option String) (initEnc : Option PyVal)
    (dt : DT) (fileBytes : List Nat) (pages : List Page) : Except PyError ReadResult :=
  if poppler = false then Except.error (PyError.osError "Poppler is not installed")
  else
    match resolveOptions pdfopt initEnc with
    | Except.error e => Except.error e
    | Except.ok s =>
      if s.encapsulate then
        Except.ok (ReadResult.encapsulated (generate_dicom_from_pdf dt fileBytes) [[0]])
      else
        match pages with
        | [] => Except.error (PyError.valueError "No image data read")
        | p0 :: _ =>
          let si0 : NDArray :=
            { shape := [pages.length, p0.height, p0.width, 3]
              dtype := DType.uint8
              pages := pages.map Page.content }
          let si1 := if s.rotate = 90 then rot90axes12 si0 else si0
          let si2 :=
            if si1.shape.length = 3 ∧ si1.shape.headD 0 = 1 then
              { si1 with shape := si1.shape.tail }
            else si1
          Except.ok (ReadResult.raster si2 "RGB" true)

/-- One axis descriptor as built by `_set_tags`: a `UniformLengthAxis`
(name, start coordinate, length, spacing) or the labelled rgb
`VariableAxis`. -/
inductive Axis where
  | uniform (nm : String) (start : Int) (n : Nat) (spacing : Int)
  | labels (nm : String) (ls : List String)
deriving DecidableEq

/-- `PDFPlugin._set_tags`, axis part (lines 150-190): strip the trailing
color dimension when `hdr.color`, build row/column axes from the last two
remaining extents, prepend a slice axis when more than two remain, and
append the fixed rgb axis when color. Start coordinates come from
`imagePositions[0] = [0,0,0]` and spacing from `(1.0, 1.0, 1.0)`.
(Python's negative indexing raises `IndexError` below 2 remaining
dimensions; the plugin only reaches this with 3- or 4-dimensional color
arrays, where `getD` coincides with it.) -/
def setTagsAxes (color : Bool) (shape : List Nat) : List Axis :=
  let actualShape := if color then shape.dropLast else shape
  let ndim := actualShape.length
  let base := [Axis.uniform "row" 0 (actualShape.getD (ndim - 2) 0) 1,
               Axis.uniform "column" 0 (actualShape.getD (ndim - 1) 0) 1]
  let base2 :=
    if ndim > 2 then Axis.uniform "slice" 0 (actualShape.getD (ndim - 3) 0) 1 :: base
    else base
  if color then base2 ++ [Axis.labels "rgb" ["r", "g", "b"]] else base2

/-- `PDFPlugin._set_tags`, tag part (lines 192-195): one `[0]` tag per
slice index. -/
def setTagsTags (color : Bool) (shape : List Nat) : List (List Nat) :=
  let actualShape := if color then shape.dropLast else shape
  let ndim := actualShape.length
  let nz := if ndim > 2 then actualShape.getD (ndim - 3) 0 else 1
  List.replicate nz [0]

/-- `PDFPlugin.write_3d_numpy` (lines 281-300): unconditionally raises
`WriteNotImplemented`. -/
def write_3d_numpy (si : NDArray) (destination : String) (opts : Option String) :
    Except PyError Unit :=
  Except.error (PyError.writeNotImplemented "Writing PDF files is not implemented.")

/-- `PDFPlugin.write_4d_numpy` (lines 302-321): unconditionally raises
`WriteNotImplemented`. -/
def write_4d_numpy (si : NDArray) (destination : String) (opts : Option String) :
    Except PyError Unit :=
  Except.error (PyError.writeNotImplemented "Writing PDF files is not implemented.")

/-! ## Helper lemmas about the option loop -/

theorem applyEntry_ok_split (st st1 : AttrState) (e : String)
    (h : applyEntry st e = Except.ok st1) :
    ∃ a v, pySplit e '=' = [a, v] ∧ a ∈ legalAttributes := by
  unfold applyEntry at h
  rcases hs : pySplit e '=' with _ | ⟨a, _ | ⟨v, _ | ⟨c, r⟩⟩⟩ <;> rw [hs] at h
  · simp at h
  · simp at h
  · by_cases hl : a ∈ legalAttributes
    · exact ⟨a, v, rfl, hl⟩
    · simp [hl] at h
  · simp at h

theorem applyEntry_ok_of (st : AttrState) (e a v : String)
    (hs : pySplit e '=' = [a, v]) (hl : a ∈ legalAttributes) :
    applyEntry st e = Except.ok (setAttr st a v) := by
  unfold applyEntry
  rw [hs]
  simp [hl]

theorem applyEntry_error_form (st : AttrState) (e : String) (err : PyError)
    (h : applyEntry st e = Except.error err) : ∃ msg, err = PyError.valueError msg := by
  unfold applyEntry at h
  rcases hs : pySplit e '=' with _ | ⟨a, _ | ⟨v, _ | ⟨c, r⟩⟩⟩ <;> rw [hs] at h
  · simp at h
    exact ⟨_, h.symm⟩
  · simp at h
    exact ⟨_, h.symm⟩
  · by_cases hl : a ∈ legalAttributes
    · simp [hl] at h
    · simp [hl] at h
      exact ⟨_, h.symm⟩
  · simp at h
    exact ⟨_, h.symm⟩

theorem applyEntries_ok_iff (es : List String) : ∀ st : AttrState,
    (∃ st2, applyEntries st es = Except.ok st2) ↔
      ∀ e ∈ es, ∃ a v, pySplit e '=' = [a, v] ∧ a ∈ legalAttributes := by
  induction es with
  | nil =>
    intro st
    simp [applyEntries]
  | cons f rest ih =>
    intro st
    simp only [applyEntries]
    constructor
    · rintro ⟨st2, h⟩ e he
      cases hae : applyEntry st f with
      | error err =>
        rw [hae] at h
        simp at h
      | ok st1 =>
        rw [hae] at h
        simp only at h
        rcases List.mem_cons.mp he with rfl | hmem
        · exact applyEntry_ok_split st st1 e hae
        · exact ((ih st1).mp ⟨st2, h⟩) e hmem
    · intro hall
      rcases hall f (List.mem_cons_self f rest) with ⟨a, v, hs, hl⟩
      rw [applyEntry_ok_of st f a v hs hl]
      exact (ih (setAttr st a v)).mpr (fun e he => hall e (List.mem_cons_of_mem f he))

theorem applyEntries_error_form (es : List String) : ∀ (st : AttrState) (err : PyError),
    applyEntries st es = Except.error err → ∃ msg, err = PyError.valueError msg := by
  induction es with
  | nil =>
    intro st err h
    simp [applyEntries] at h
  | cons f rest ih =>
    intro st err h
    simp only [applyEntries] at h
    cases hae : applyEntry st f with
    | ok st1 =>
      rw [hae] at h
      exact ih st1 err h
    | error e1 =>
      rw [hae] at h
      simp at h
      exact h ▸ applyEntry_error_form st f e1 hae

/-! ## Claim theorems -/

/-- C1. The claim says all three defaults (dpi=150, rotate=0,
encapsulate=false) are seeded before parsing, so an option string omitting
`encapsulate` completes on the defaults. In the code only `dpi` and
`rotate` are seeded (lines 73-74): with no option string, or with one that
omits `encapsulate`, the coercion at line 85 touches the never-assigned
attribute and raises `AttributeError` on a fresh instance, while the `dpi`
and `rotate` defaults do work and an explicit key overrides only its own
default. -/
theorem c1_encapsulate_default_not_seeded :
    resolveOptions none none =
      Except.error (PyError.attributeError "PDFPlugin object has no attribute encapsulate")
    ∧ resolveOptions (some "dpi=300") none =
      Except.error (PyError.attributeError "PDFPlugin object has no attribute encapsulate")
    ∧ resolveOptions (some "dpi=300,encapsulate=no") none =
      Except.ok { dpi := 300, rotate := 0, encapsulate := false } := by
  decide

/-- C2. The claim says a rasterized single-page read returns a 3D
`(height, width, 3)` array with axes row/column/rgb only. In the code the
drop of the leading page dimension (lines 120-121) tests `si.ndim == 3`,
but the color array is always 4D, so a one-page document of height 2 and
width 3 comes back shaped `(1, 2, 3, 3)` and the derived axes include a
length-1 slice axis. -/
theorem c2_single_page_stays_4d :
    readImage true (some "encapsulate=no") none ⟨"20220101", "120000.000000"⟩ [] [⟨2, 3, 7⟩] =
      Except.ok (ReadResult.raster ⟨[1, 2, 3, 3], DType.uint8, [7]⟩ "RGB" true)
    ∧ setTagsAxes true [1, 2, 3, 3] =
      [Axis.uniform "slice" 0 1 1, Axis.uniform "row" 0 2 1,
       Axis.uniform "column" 0 3 1, Axis.labels "rgb" ["r", "g", "b"]] := by
  decide

/-- C3. Encapsulation wraps the input bytes into the dataset's
`EncapsulatedDocument` with even length, and the prefix of the input's
length is the input itself; exactly: an even-length input is embedded
unchanged, and an odd-length input gets exactly one zero byte appended. -/
theorem c3_encapsulated_document_even_and_preserves_input (dt : DT) (fileBytes : List Nat) :
    (generate_dicom_from_pdf dt fileBytes).encapsulatedDocument.length % 2 = 0
    ∧ (generate_dicom_from_pdf dt fileBytes).encapsulatedDocument.take fileBytes.length
        = fileBytes
    ∧ (generate_dicom_from_pdf dt fileBytes).encapsulatedDocument
        = (if fileBytes.length % 2 = 0 then fileBytes else fileBytes ++ [0]) := by
  unfold generate_dicom_from_pdf
  by_cases h2 : fileBytes.length % 2 = 0
  · simp [h2, List.take_length]
  · simp [h2, List.length_append]
    omega

/-- C4. Both write entry points raise `WriteNotImplemented` for every
array, destination and option set, and produce nothing else. -/
theorem c4_write_paths_always_fail (si si2 : NDArray) (d d2 : String) (o o2 : Option String) :
    write_3d_numpy si d o =
      Except.error (PyError.writeNotImplemented "Writing PDF files is not implemented.")
    ∧ write_4d_numpy si2 d2 o2 =
      Except.error (PyError.writeNotImplemented "Writing PDF files is not implemented.") :=
  ⟨rfl, rfl⟩

/-- C5. The resolver splits the option string on commas and each entry on
the equals sign; it succeeds exactly when every entry splits into a
key/value pair whose key is in the legal set, and every failure it raises
is a `ValueError` (unknown key, or an entry without exactly one equals
sign). -/
theorem c5_resolver_key_validation (s : String) (st : AttrState) :
    ((∃ st2, applyEntries st (pySplit s ',') = Except.ok st2) ↔
      ∀ e ∈ pySplit s ',', ∃ a v, pySplit e '=' = [a, v] ∧ a ∈ legalAttributes)
    ∧ (∀ err, applyEntries st (pySplit s ',') = Except.error err →
        ∃ msg, err = PyError.valueError msg) :=
  ⟨applyEntries_ok_iff (pySplit s ',') st,
   fun err h => applyEntries_error_form (pySplit s ',') st err h⟩

/-- C6. The claim says any read whose resolved rotate value lies outside
{0, 90} raises a configuration error regardless of the other options. The
rotate check (lines 86-87) sits after the `encapsulate` coercion (line
85), so on a fresh instance whose option string omits `encapsulate` the
read instead dies with `AttributeError` before the rotate validation; the
claimed `ValueError` is raised only when the `encapsulate` attribute
coercion succeeds, e.g. when the option string sets the key. -/
theorem c6_rotate_validation_shadowed :
    readImage true (some "rotate=45") none ⟨"20220101", "120000.000000"⟩ [] [] =
      Except.error (PyError.attributeError "PDFPlugin object has no attribute encapsulate")
    ∧ readImage true (some "rotate=45,encapsulate=no") none ⟨"20220101", "120000.000000"⟩ [] [] =
      Except.error (PyError.valueError "psopt rotate value 45 is not implemented") := by
  decide

/-- C7. When the `POPPLER_INSTALLED` flag is false, every read fails with
the renderer-not-installed error, whatever the option string, the
instance state, the input bytes or the page list: the check is the first
statement of `_read_image` and no option parsing or construction takes
place. -/
theorem c7_poppler_gate_first (pdfopt : Option String) (initEnc : Option PyVal)
    (dt : DT) (fileBytes : List Nat) (pages : List Page) :
    readImage false pdfopt initEnc dt fileBytes pages =
      Except.error (PyError.osError "Poppler is not installed") := rfl

/-- C8. With n ≥ 2 pages sharing the first page's extents, rasterization
at rotate's default stacks the page contents in document order into one
uint8 array shaped `(n, height, width, 3)` with extents from the first
page, and the derived axis set prepends a slice axis of length n to the
row, column and rgb axes. -/
theorem c8_multipage_stack_shape_axes (p0 p1 : Page) (rest : List Page)
    (dt : DT) (fileBytes : List Nat)
    (huniform : ∀ p ∈ (p0 :: p1 :: rest), p.height = p0.height ∧ p.width = p0.width) :
    readImage true (some "encapsulate=no") none dt fileBytes (p0 :: p1 :: rest) =
      Except.ok (ReadResult.raster
        { shape := [(p0 :: p1 :: rest).length, p0.height, p0.width, 3]
          dtype := DType.uint8
          pages := (p0 :: p1 :: rest).map Page.content } "RGB" true)
    ∧ setTagsAxes true [(p0 :: p1 :: rest).length, p0.height, p0.width, 3] =
      [Axis.uniform "slice" 0 (p0 :: p1 :: rest).length 1,
       Axis.uniform "row" 0 p0.height 1,
       Axis.uniform "column" 0 p0.width 1,
       Axis.labels "rgb" ["r", "g", "b"]] :=
  ⟨rfl, rfl⟩

/-- Witness for C8 at a concrete two-page input: both pages 2×3, contents
10 and 11, yielding shape (2, 2, 3, 3) and a slice axis of length 2. -/
theorem c8_multipage_stack_shape_axes_witness :
    readImage true (some "encapsulate=no") none ⟨"20220101", "120000.000000"⟩ []
        (⟨2, 3, 10⟩ :: ⟨2, 3, 11⟩ :: []) =
      Except.ok (ReadResult.raster
        { shape := [((⟨2, 3, 10⟩ : Page) :: ⟨2, 3, 11⟩ :: []).length, 2, 3, 3]
          dtype := DType.uint8
          pages := (((⟨2, 3, 10⟩ : Page) :: ⟨2, 3, 11⟩ :: []).map Page.content) } "RGB" true)
    ∧ setTagsAxes true [((⟨2, 3, 10⟩ : Page) :: ⟨2, 3, 11⟩ :: []).length, 2, 3, 3] =
      [Axis.uniform "slice" 0 ((⟨2, 3, 10⟩ : Page) :: ⟨2, 3, 11⟩ :: []).length 1,
       Axis.uniform "row" 0 2 1,
       Axis.uniform "column" 0 3 1,
       Axis.labels "rgb" ["r", "g", "b"]] :=
  c8_multipage_stack_shape_axes ⟨2, 3, 10⟩ ⟨2, 3, 11⟩ [] ⟨"20220101", "120000.000000"⟩ []
    (by decide)

/-- C9. On the same page list, reading with rotate=90 produces an array
whose row and column extents are those of the rotate=0 read swapped: the
rotate=0 shape is `(n, h, w, 3)` and the rotate=90 shape is `(n, w, h, 3)`
with identical stacked contents. -/
theorem c9_rotate90_transposes_extents (p0 : Page) (rest : List Page)
    (dt : DT) (fileBytes : List Nat) :
    readImage true (some "rotate=0,encapsulate=no") none dt fileBytes (p0 :: rest) =
      Except.ok (ReadResult.raster
        { shape := [(p0 :: rest).length, p0.height, p0.width, 3]
          dtype := DType.uint8
          pages := (p0 :: rest).map Page.content } "RGB" true)
    ∧ readImage true (some "rotate=90,encapsulate=no") none dt fileBytes (p0 :: rest) =
      Except.ok (ReadResult.raster
        { shape := [(p0 :: rest).length, p0.width, p0.height, 3]
          dtype := DType.uint8
          pages := (p0 :: rest).map Page.content } "RGB" true) :=
  ⟨rfl, rfl⟩

/-- C10. With the renderer flag false, a read that requests encapsulation
still fails with the renderer-not-installed error, although with the flag
true the same invocation returns the encapsulated dataset without
consulting any rasterized page (the page list here is empty): the
availability check precedes the encapsulate/rasterize branch. -/
theorem c10_encapsulation_also_gated (initEnc : Option PyVal) (dt : DT) (fileBytes : List Nat) :
    readImage false (some "encapsulate=true") initEnc dt fileBytes [] =
      Except.error (PyError.osError "Poppler is not installed")
    ∧ readImage true (some "encapsulate=true") initEnc dt fileBytes [] =
      Except.ok (ReadResult.encapsulated (generate_dicom_from_pdf dt fileBytes) [[0]]) :=
  ⟨rfl, rfl⟩

end PdfPlugin
